import Mathlib

/-!
Verification of the GoBarber web client (sign-in, sign-up, profile edit pages
and the toast notification component) against its specification.

Form field values are modelled as `Option String`: `none` stands for a
JavaScript `undefined`/`null` field, `some s` for the string `s`.  Each page's
submit handler is embedded as a function producing the ordered list of
observable events it performs (setting form errors, running schema validation,
issuing HTTP requests, showing toasts, navigating).
-/

/-- A field-level validation error: (field path, message), as produced by a
Yup `ValidationError`'s inner list. -/
abbrev FieldError := String × String

/-- `true` when an optional string field is absent (`undefined`/`null`) or the
empty string; this is exactly what Yup's `required()` rejects on a string
schema. -/
def absentOrEmpty : Option String → Bool
  | none => true
  | some s => s = ""

/-- JavaScript truthiness of an optional string: `undefined`/`null` and the
empty string are falsy, every other string is truthy. -/
def truthy : Option String → Bool
  | none => false
  | some s => s ≠ ""

/-- Split a character list at every occurrence of `c` (helper for the email
format test). -/
def splitOnChar (c : Char) : List Char → List (List Char)
  | [] => [[]]
  | x :: xs =>
    match splitOnChar c xs with
    | [] => if x = c then [[], []] else [[x]]
    | y :: ys => if x = c then [] :: y :: ys else (x :: y) :: ys

/-- Yup's `.email` format test, abstracted: the library's RFC-style regular
expression is external library code, not part of this repository.  Modelled
as: exactly one `@` separating a non-empty local part from a domain whose
dot-separated labels are all non-empty, with at least one dot; the empty
string passes the format test (the library excludes empty strings from the
pattern, leaving them to `required()`).  Every claim only evaluates this at
concrete addresses such as `a@b.com`. -/
def isEmailFormat (s : String) : Bool :=
  if s.data = [] then true
  else
    match splitOnChar '@' s.data with
    | [loc, domain] =>
        !loc.isEmpty && !domain.isEmpty &&
        (splitOnChar '.' domain).length ≥ 2 &&
        (splitOnChar '.' domain).all (fun part => !part.isEmpty)
    | _ => false

/-- Errors produced on a field declared
`Yup.string().email(msg1).required(msg2)`: the format test fails only on a
present, non-empty, ill-formed string; `required` fails on an absent or empty
value.  The two never co-occur. -/
def emailFieldErrors (v : Option String) (fmtMsg reqMsg : String) : List FieldError :=
  (match v with
   | some s => if s ≠ "" && !(isEmailFormat s) then [("email", fmtMsg)] else []
   | none => []) ++
  (if absentOrEmpty v then [("email", reqMsg)] else [])

/-- Sign-in form data (fields `email`, `password`). -/
structure SignInFormData where
  email : Option String
  password : Option String
deriving Repr, DecidableEq

/-- The sign-in validation schema from `src/pages/SignIn/index.tsx`:
`email: Yup.string().email('Digite um email válido').required('Email Obrigatório')`,
`password: Yup.string().required('Senha obrigatória')`, validated with
`abortEarly: false` so all field errors are collected. -/
def signInValidate (d : SignInFormData) : List FieldError :=
  emailFieldErrors d.email "Digite um email válido" "Email Obrigatório" ++
  (if absentOrEmpty d.password then [("password", "Senha obrigatória")] else [])

/-- Sign-up form data (fields `name`, `email`, `password`). -/
structure SignUpFormData where
  name : Option String
  email : Option String
  password : Option String
deriving Repr, DecidableEq

/-- The sign-up validation schema from `src/pages/SignUp/index.tsx`:
`name` required ('Nome Obrigatório'), `email` well-formed and required,
`password: Yup.string().min(6, 'No mínimo 6 dígitos')` (not required: `min`
skips an absent value but rejects any present string shorter than 6). -/
def signUpValidate (d : SignUpFormData) : List FieldError :=
  (if absentOrEmpty d.name then [("name", "Nome Obrigatório")] else []) ++
  emailFieldErrors d.email "Digite um email válido" "Email Obrigatório" ++
  (match d.password with
   | none => []
   | some s => if s.length < 6 then [("password", "No mínimo 6 dígitos")] else [])

/-- Profile form data (fields `name`, `email`, `old_password`, `password`,
`password_confirmation`). -/
structure ProfileFormData where
  name : Option String
  email : Option String
  old_password : Option String
  password : Option String
  password_confirmation : Option String
deriving Repr, DecidableEq

/-- Field errors of the profile schema from `src/pages/Profile/index.tsx`,
given that the `password` field holds the string `pw` (so the `when`
condition `val => !!val.length` evaluates without throwing):
`name` and `email` as on sign-up; `old_password` is required
('Obrigatório ao informar a nova senha') exactly when `pw` is truthy;
`password` carries the test `val => (val ? val.length >= 6 : true)`
('Senha maior que 6 caracteres'); `password_confirmation` must be one of
`[Yup.ref('password'), undefined]` ('Confirme a nova senha'). -/
def profileFieldErrors (d : ProfileFormData) (pw : String) : List FieldError :=
  (if absentOrEmpty d.name then [("name", "Nome Obrigatório")] else []) ++
  emailFieldErrors d.email "Digite um email válido" "Email Obrigatório" ++
  (if pw ≠ "" && absentOrEmpty d.old_password then
      [("old_password", "Obrigatório ao informar a nova senha")] else []) ++
  (if pw ≠ "" && pw.length < 6 then
      [("password", "Senha maior que 6 caracteres")] else []) ++
  (match d.password_confirmation with
   | none => []
   | some c => if c ≠ pw then [("password_confirmation", "Confirme a nova senha")] else [])

/-- The profile schema validation.  When the `password` field is
`undefined`/`null`, the `old_password` `when` condition `val => !!val.length`
dereferences `.length` on it and throws a `TypeError`, so the whole
`schema.validate` call rejects with a non-validation error
(modelled as `Except.error ()`); otherwise validation resolves to the
collected field errors (`Except.ok`, with `[]` meaning the data is
accepted). -/
def profileValidate (d : ProfileFormData) : Except Unit (List FieldError) :=
  match d.password with
  | none => Except.error ()
  | some pw => Except.ok (profileFieldErrors d pw)

/-- Modelled from the spec: `src/utils/getValidationErrors` is not among the
provided sources; per the spec, validation errors are "mapped back onto the
individual form fields by field name" for inline display.  Modelled as the
map from each inner error's path to its message; the schemas here produce at
most one error per path, so the list itself is that map. -/
def getValidationErrors (errs : List FieldError) : List FieldError := errs

/-- The toast kinds of `ToastMessage.type`. -/
inductive ToastKind where
  | success
  | error
  | info
deriving Repr, DecidableEq

/-- The request body of the profile update `api.put('/profile', formData)`:
`name` and `email` always, and the conditional spread on `old_password`
adds the three password fields `old_password`, `password`,
`password_confirmation` exactly when `old_password` is truthy. -/
structure ProfileBody where
  name : Option String
  email : Option String
  passwords : Option (Option String × Option String × Option String)
deriving Repr, DecidableEq

/-- `formData` construction from `src/pages/Profile/index.tsx`. -/
def mkProfileBody (d : ProfileFormData) : ProfileBody :=
  { name := d.name
    email := d.email
    passwords :=
      if truthy d.old_password then
        some (d.old_password, d.password, d.password_confirmation)
      else none }

/-- The outbound HTTP requests the pages can issue. -/
inductive ApiRequest where
  | postUsers : SignUpFormData → ApiRequest
  | putProfile : ProfileBody → ApiRequest
  | patchAvatar : ApiRequest
deriving Repr, DecidableEq

/-- An observable step of a handler, in execution order. -/
inductive Event where
  | setErrors : List FieldError → Event
  | validate : List FieldError → Event
  | validateThrow : Event
  | request : ApiRequest → Event
  | toast : ToastKind → String → Event
  | navigate : String → Event
deriving Repr, DecidableEq

/-- Number of outbound HTTP requests in a trace. -/
def requestCount (es : List Event) : Nat :=
  (es.filter (fun e => match e with | Event.request _ => true | _ => false)).length

/-- Number of toast notifications in a trace. -/
def toastCount (es : List Event) : Nat :=
  (es.filter (fun e => match e with | Event.toast _ _ => true | _ => false)).length

/-- Number of error toast notifications in a trace. -/
def errorToastCount (es : List Event) : Nat :=
  (es.filter (fun e => match e with | Event.toast ToastKind.error _ => true | _ => false)).length

/-- All field errors set on the form during a trace. -/
def fieldErrorsSet (es : List Event) : List FieldError :=
  (es.map (fun e => match e with | Event.setErrors l => l | _ => [])).flatten

/-- The sign-in submit handler from `src/pages/SignIn/index.tsx`: it
unconditionally calls `setErrors ( name: 'Nome obrigatório' )` before awaiting
`schema.validate`, and on a validation rejection maps the errors onto the
fields.  It issues no HTTP request and shows no toast: the page imports
neither the api service nor the toast hook. -/
def signInSubmit (d : SignInFormData) : List Event :=
  Event.setErrors [("name", "Nome obrigatório")] ::
  Event.validate (signInValidate d) ::
  (if signInValidate d = [] then []
   else [Event.setErrors (getValidationErrors (signInValidate d))])

/-- The sign-up submit handler from `src/pages/SignUp/index.tsx`.  `apiOk`
tells whether `api.post('/users', data)` succeeds.  On a validation rejection
the errors are mapped onto the fields and the handler returns; on any other
caught failure one generic error toast ('Erro ao cadastrar perfil') is shown;
on success a success toast is shown and the handler navigates to
`/dashboard`. -/
def signUpSubmit (d : SignUpFormData) (apiOk : Bool) : List Event :=
  match signUpValidate d with
  | [] =>
      Event.validate [] ::
      Event.request (ApiRequest.postUsers d) ::
      (if apiOk then
         [Event.toast ToastKind.success "Cadastro realizado",
          Event.navigate "/dashboard"]
       else
         [Event.toast ToastKind.error "Erro ao cadastrar perfil"])
  | errs =>
      [Event.validate errs, Event.setErrors (getValidationErrors errs)]

/-- The profile submit handler from `src/pages/Profile/index.tsx`.  `apiOk`
tells whether `api.put('/profile', formData)` succeeds.  A `TypeError` thrown
inside `schema.validate` (password field absent) is caught by the same
`catch`, fails the `instanceof Yup.ValidationError` test and so produces the
generic error toast; a `ValidationError` is mapped onto the fields; after a
successful validation the update request is issued with `mkProfileBody d`,
then a success toast and navigation, or the generic error toast if the
request fails. -/
def profileSubmit (d : ProfileFormData) (apiOk : Bool) : List Event :=
  match profileValidate d with
  | Except.error _ =>
      [Event.validateThrow, Event.toast ToastKind.error "Erro ao cadastrar perfil"]
  | Except.ok [] =>
      Event.validate [] ::
      Event.request (ApiRequest.putProfile (mkProfileBody d)) ::
      (if apiOk then
         [Event.toast ToastKind.success "Cadastro realizado",
          Event.navigate "/dashboard"]
       else
         [Event.toast ToastKind.error "Erro ao cadastrar perfil"])
  | Except.ok errs =>
      [Event.validate errs, Event.setErrors (getValidationErrors errs)]

/-- The avatar change handler from `src/pages/Profile/index.tsx`: when a file
is selected it issues `api.patch('/users/avatar', data)` with only a `.then`
continuation and no `.catch`: on success it updates the user and shows a
success toast; a rejected request is left unhandled, so no toast and no field
error is ever produced for it. -/
def avatarChange (hasFiles : Bool) (apiOk : Bool) : List Event :=
  if hasFiles then
    Event.request ApiRequest.patchAvatar ::
    (if apiOk then [Event.toast ToastKind.success "Avatar atualizado"] else [])
  else []

/-- A submission failure surfaced inline: some field errors are set on the
form and no error toast is shown. -/
def inlineOutcome (es : List Event) : Prop :=
  fieldErrorsSet es ≠ [] ∧ errorToastCount es = 0

/-- A submission failure surfaced as a generic notification: exactly one
error toast and no field errors set. -/
def genericOutcome (es : List Event) : Prop :=
  errorToastCount es = 1 ∧ fieldErrorsSet es = []

/-- A toast notification entry (`ToastMessage` of the toast hook): unique
identifier, kind, title and optional description. -/
structure ToastMessage where
  id : Nat
  kind : ToastKind
  title : String
  description : Option String
deriving Repr, DecidableEq

/-- Modelled from the spec: the toast hook's `removeToast` (`src/hooks/toast`
is not among the provided sources) removes the entry with the given
identifier from the process-wide list if present; removing an absent
identifier is a no-op. -/
def removeToast (i : Nat) (l : List ToastMessage) : List ToastMessage :=
  l.filter (fun t => t.id ≠ i)

/-- Timer semantics of the `Toast` component (`src/unnamed/part_000`): the
effect run at mount time `mountT` schedules `removeToast(toast.id)` via
`setTimeout(_, 3000)` and its cleanup calls `clearTimeout` when the component
is unmounted.  The result is the time at which the timer callback fires, or
`none` when the unmount (at `unmountT`) cleared it first. -/
def timerFireTime (mountT : Nat) (unmountT : Option Nat) : Option Nat :=
  match unmountT with
  | none => some (mountT + 3000)
  | some tu => if tu < mountT + 3000 then none else some (mountT + 3000)

/-- The `(time, id)` invocations of `removeToast` on behalf of one displayed
toast mounted at `mountT`: a manual dismissal at `dismissT` (the close button
calls `removeToast(toast.id)` and the component is torn down, running the
effect cleanup), plus the timer callback if it ever fires. -/
def toastRemoveCalls (mountT : Nat) (dismissT : Option Nat) (i : Nat) :
    List (Nat × Nat) :=
  match dismissT with
  | some dt =>
      (dt, i) ::
      (match timerFireTime mountT (some dt) with
       | some ft => [(ft, i)]
       | none => [])
  | none =>
      match timerFireTime mountT none with
      | some ft => [(ft, i)]
      | none => []

deriving instance DecidableEq for Except

/-- If the sign-up `name` field is absent or empty, the name-required error is
among the sign-up validation errors. -/
theorem name_mem_signUpValidate (d : SignUpFormData) (h : absentOrEmpty d.name = true) :
    ("name", "Nome Obrigatório") ∈ signUpValidate d := by
  simp [signUpValidate, h]

/-- If the sign-up `email` field is absent or empty, the email-required error
is among the sign-up validation errors. -/
theorem email_mem_signUpValidate (d : SignUpFormData) (h : absentOrEmpty d.email = true) :
    ("email", "Email Obrigatório") ∈ signUpValidate d := by
  simp [signUpValidate, emailFieldErrors, h]

/-- The sign-in submit handler issues no HTTP request and shows no toast on
any submission (shared helper: the page imports neither the api service nor
the toast hook). -/
theorem signInSubmit_no_request (d : SignInFormData) :
    requestCount (signInSubmit d) = 0 ∧ toastCount (signInSubmit d) = 0 := by
  unfold signInSubmit requestCount toastCount
  split <;> simp [List.filter]

/-- Claim C1, counterexample: the sign-in submission with email `a@b.com` and
password `secret1` passes the sign-in validation schema, yet the submit
handler issues zero outbound HTTP requests (not exactly one) and can show no
notification at all. -/
theorem signIn_valid_submission_no_request :
    signInValidate ⟨some "a@b.com", some "secret1"⟩ = [] ∧
    requestCount (signInSubmit ⟨some "a@b.com", some "secret1"⟩) = 0 ∧
    toastCount (signInSubmit ⟨some "a@b.com", some "secret1"⟩) = 0 := by
  decide

/-- Claim C1, amended: for every sign-in submission, whether or not it passes
the sign-in validation schema, the submit handler issues no outbound HTTP
request and shows no notification; its only observable effects are setting
field errors. -/
theorem signIn_never_requests (d : SignInFormData) :
    requestCount (signInSubmit d) = 0 ∧ toastCount (signInSubmit d) = 0 :=
  signInSubmit_no_request d

/-- Claim C2, counterexample: the sign-in screen submission with email
`x@y.co` and password `pw` is accepted by the sign-in validation schema, yet
the handler's trace contains zero outbound HTTP requests. -/
theorem signIn_breaks_three_screen_claim :
    signInValidate ⟨some "x@y.co", some "pw"⟩ = [] ∧
    requestCount (signInSubmit ⟨some "x@y.co", some "pw"⟩) = 0 := by
  decide

/-- Claim C2, amended: on sign-up and profile edit, a submission accepted by
the screen's validation schema leads to exactly one outbound HTTP request,
issued immediately after validation succeeds, and no request is issued when
validation rejects; the sign-in handler, however, issues no request even for
accepted submissions. -/
theorem valid_submission_single_request (dsu : SignUpFormData) (dp : ProfileFormData)
    (dsi : SignInFormData) (r : Bool) :
    (signUpValidate dsu = [] →
      (∃ rest, signUpSubmit dsu r =
        Event.validate [] :: Event.request (ApiRequest.postUsers dsu) :: rest) ∧
      requestCount (signUpSubmit dsu r) = 1) ∧
    (signUpValidate dsu ≠ [] → requestCount (signUpSubmit dsu r) = 0) ∧
    (profileValidate dp = Except.ok [] →
      (∃ rest, profileSubmit dp r =
        Event.validate [] :: Event.request (ApiRequest.putProfile (mkProfileBody dp)) :: rest) ∧
      requestCount (profileSubmit dp r) = 1) ∧
    (profileValidate dp ≠ Except.ok [] → requestCount (profileSubmit dp r) = 0) ∧
    requestCount (signInSubmit dsi) = 0 := by
  refine ⟨?_, ?_, ?_, ?_, (signInSubmit_no_request dsi).1⟩
  · intro h
    cases r <;> simp [signUpSubmit, h, requestCount, List.filter]
  · intro h
    cases h' : signUpValidate dsu with
    | nil => exact absurd h' h
    | cons a l => simp [signUpSubmit, h', requestCount, List.filter]
  · intro h
    cases r <;> simp [profileSubmit, h, requestCount, List.filter]
  · intro h
    cases h' : profileValidate dp with
    | error e => simp [profileSubmit, h', requestCount, List.filter]
    | ok errs =>
      cases errs with
      | nil => exact absurd h' h
      | cons a l => simp [profileSubmit, h', requestCount, List.filter]

/-- Witness for the amended claim C2 at concrete submissions: a valid sign-up
and a valid profile edit each issue exactly one request, an invalid sign-up
issues none. -/
theorem valid_submission_single_request_witness :
    requestCount (signUpSubmit ⟨some "n", some "a@b.com", some "123456"⟩ true) = 1 ∧
    requestCount (profileSubmit ⟨some "n", some "a@b.com", some "", some "", some ""⟩ true) = 1 ∧
    requestCount (signUpSubmit ⟨some "", some "a@b.com", some "123456"⟩ true) = 0 := by
  refine ⟨((valid_submission_single_request ⟨some "n", some "a@b.com", some "123456"⟩
      ⟨some "n", some "a@b.com", some "", some "", some ""⟩ ⟨none, none⟩ true).1 (by decide)).2,
    ((valid_submission_single_request ⟨some "n", some "a@b.com", some "123456"⟩
      ⟨some "n", some "a@b.com", some "", some "", some ""⟩ ⟨none, none⟩ true).2.2.1 (by decide)).2,
    (valid_submission_single_request ⟨some "", some "a@b.com", some "123456"⟩
      ⟨some "n", some "a@b.com", some "", some "", some ""⟩ ⟨none, none⟩ true).2.1 (by decide)⟩

/-- Claim C3: on every sign-in submission, regardless of the submitted data,
the handler's first action is to set the spurious field error
`name: Nome obrigatório`, and only then does schema validation run. -/
theorem signIn_spurious_name_error_first (d : SignInFormData) :
    ∃ rest, signInSubmit d =
      Event.setErrors [("name", "Nome obrigatório")] ::
      Event.validate (signInValidate d) :: rest :=
  ⟨_, rfl⟩

/-- Claim C4: on a profile-edit submission whose `password` field is a
non-empty string and whose `password_confirmation` field is a string, the
profile schema resolves to field errors containing the confirmation error
exactly when the confirmation differs from the new password. -/
theorem profile_confirmation_must_match (d : ProfileFormData) (pw c : String)
    (hpw : d.password = some pw) (hne : pw ≠ "")
    (hc : d.password_confirmation = some c) :
    profileValidate d = Except.ok (profileFieldErrors d pw) ∧
    ((("password_confirmation", "Confirme a nova senha") ∈ profileFieldErrors d pw) ↔
      c ≠ pw) := by
  refine ⟨by simp [profileValidate, hpw], ?_⟩
  rcases d with ⟨n, e, o, p, pc⟩
  simp only at hpw hc
  subst hpw
  subst hc
  constructor
  · intro hmem
    simp [profileFieldErrors, emailFieldErrors] at hmem
    rcases e with _ | ⟨es⟩ <;> simp at hmem <;> exact hmem
  · intro hcc
    simp [profileFieldErrors, hcc]

/-- Witness for claim C4: password `abc123` with mismatching confirmation
`abc124` yields the confirmation error. -/
theorem profile_confirmation_must_match_witness :
    (("password_confirmation", "Confirme a nova senha") ∈
      profileFieldErrors
        ⟨some "n", some "a@b.com", some "x", some "abc123", some "abc124"⟩ "abc123") ∧
    profileValidate ⟨some "n", some "a@b.com", some "x", some "abc123", some "abc124"⟩ =
      Except.ok (profileFieldErrors
        ⟨some "n", some "a@b.com", some "x", some "abc123", some "abc124"⟩ "abc123") := by
  have h := profile_confirmation_must_match
    ⟨some "n", some "a@b.com", some "x", some "abc123", some "abc124"⟩
    "abc123" "abc124" rfl (by decide) rfl
  exact ⟨h.2.mpr (by decide), h.1⟩

/-- Claim C5: on a profile-edit submission whose `password` field is the
string `pw`, the schema produces the old-password-required error exactly when
a new password is supplied (`pw` non-empty) and the `old_password` field is
absent or empty. -/
theorem profile_old_password_required_iff (d : ProfileFormData) (pw : String)
    (hpw : d.password = some pw) :
    profileValidate d = Except.ok (profileFieldErrors d pw) ∧
    ((("old_password", "Obrigatório ao informar a nova senha") ∈ profileFieldErrors d pw) ↔
      (pw ≠ "" ∧ absentOrEmpty d.old_password = true)) := by
  refine ⟨by simp [profileValidate, hpw], ?_⟩
  rcases d with ⟨n, e, o, p, pc⟩
  simp only at hpw
  subst hpw
  constructor
  · intro hmem
    simp [profileFieldErrors, emailFieldErrors] at hmem
    rcases e with _ | ⟨es⟩ <;> rcases pc with _ | ⟨pcs⟩ <;>
      simp at hmem <;> exact hmem
  · rintro ⟨h1, h2⟩
    simp [profileFieldErrors, h1, h2]

/-- Witness for claim C5: a new password `abc123` with no old password yields
the old-password-required error. -/
theorem profile_old_password_required_iff_witness :
    (("old_password", "Obrigatório ao informar a nova senha") ∈
      profileFieldErrors
        ⟨some "n", some "a@b.com", none, some "abc123", some "abc123"⟩ "abc123") ∧
    profileValidate ⟨some "n", some "a@b.com", none, some "abc123", some "abc123"⟩ =
      Except.ok (profileFieldErrors
        ⟨some "n", some "a@b.com", none, some "abc123", some "abc123"⟩ "abc123") := by
  have h := profile_old_password_required_iff
    ⟨some "n", some "a@b.com", none, some "abc123", some "abc123"⟩ "abc123" rfl
  exact ⟨h.2.mpr ⟨by decide, by decide⟩, h.1⟩

/-- Claim C6: a sign-up submission missing a required field (absent or empty
`name` or `email`) is rejected by validation with no HTTP request issued, and
the corresponding field receives its required-error message. -/
theorem signUp_missing_required_field (d : SignUpFormData) (r : Bool)
    (h : absentOrEmpty d.name = true ∨ absentOrEmpty d.email = true) :
    requestCount (signUpSubmit d r) = 0 ∧
    (absentOrEmpty d.name = true →
      ("name", "Nome Obrigatório") ∈ fieldErrorsSet (signUpSubmit d r)) ∧
    (absentOrEmpty d.email = true →
      ("email", "Email Obrigatório") ∈ fieldErrorsSet (signUpSubmit d r)) := by
  have hne : signUpValidate d ≠ [] := by
    intro h0
    cases h with
    | inl hn =>
      have := name_mem_signUpValidate d hn
      rw [h0] at this
      exact List.not_mem_nil _ this
    | inr he =>
      have := email_mem_signUpValidate d he
      rw [h0] at this
      exact List.not_mem_nil _ this
  cases h' : signUpValidate d with
  | nil => exact absurd h' hne
  | cons a l =>
    refine ⟨by simp [signUpSubmit, h', requestCount, List.filter], ?_, ?_⟩
    · intro hn
      have := name_mem_signUpValidate d hn
      rw [h'] at this
      simpa [signUpSubmit, h', fieldErrorsSet, getValidationErrors] using this
    · intro he
      have := email_mem_signUpValidate d he
      rw [h'] at this
      simpa [signUpSubmit, h', fieldErrorsSet, getValidationErrors] using this

/-- Witness for claim C6 at the spec's example: sign-up with empty name,
email `a@b.com` and password `123456` sends no request and sets the
`Nome Obrigatório` field error on `name`. -/
theorem signUp_missing_required_field_witness :
    requestCount (signUpSubmit ⟨some "", some "a@b.com", some "123456"⟩ false) = 0 ∧
    ("name", "Nome Obrigatório") ∈
      fieldErrorsSet (signUpSubmit ⟨some "", some "a@b.com", some "123456"⟩ false) := by
  have h := signUp_missing_required_field ⟨some "", some "a@b.com", some "123456"⟩ false
    (Or.inl (by decide))
  exact ⟨h.1, h.2.1 (by decide)⟩

/-- Claim C7, counterexample: a failed avatar-update request is a submission
failure that is surfaced by neither of the two specified outcomes: the
handler attaches no rejection continuation, so the trace holds the request
and then no toast and no field error. -/
theorem avatar_failure_unsurfaced :
    avatarChange true false = [Event.request ApiRequest.patchAvatar] ∧
    toastCount (avatarChange true false) = 0 ∧
    fieldErrorsSet (avatarChange true false) = [] := by
  decide

/-- Claim C7, amended: every failure during a form-submission flow is either
mapped onto the form fields (validation errors, with no error toast) or
surfaced as exactly one generic error toast (any other failure, including the
profile `TypeError`), except a failed avatar-update request, which is
surfaced by neither: it produces no notification and no field errors. -/
theorem failure_surfacing_outcomes (dsu : SignUpFormData) (dp : ProfileFormData)
    (dsi : SignInFormData) (r : Bool) :
    (signUpValidate dsu ≠ [] → inlineOutcome (signUpSubmit dsu r)) ∧
    (signUpValidate dsu = [] → genericOutcome (signUpSubmit dsu false)) ∧
    (∀ errs, profileValidate dp = Except.ok errs → errs ≠ [] →
      inlineOutcome (profileSubmit dp r)) ∧
    (profileValidate dp = Except.ok [] → genericOutcome (profileSubmit dp false)) ∧
    (profileValidate dp = Except.error () → genericOutcome (profileSubmit dp r)) ∧
    (signInValidate dsi ≠ [] →
      Event.setErrors (getValidationErrors (signInValidate dsi)) ∈ signInSubmit dsi ∧
      errorToastCount (signInSubmit dsi) = 0) ∧
    toastCount (avatarChange true false) = 0 ∧
    fieldErrorsSet (avatarChange true false) = [] := by
  refine ⟨?_, ?_, ?_, ?_, ?_, ?_, by decide, by decide⟩
  · intro h
    cases h' : signUpValidate dsu with
    | nil => exact absurd h' h
    | cons a l =>
      constructor
      · simp [signUpSubmit, h', fieldErrorsSet, getValidationErrors]
      · simp [signUpSubmit, h', errorToastCount, List.filter]
  · intro h
    constructor
    · simp [signUpSubmit, h, errorToastCount, List.filter]
    · simp [signUpSubmit, h, fieldErrorsSet]
  · intro errs hv hne
    cases errs with
    | nil => exact absurd rfl hne
    | cons a l =>
      constructor
      · simp [profileSubmit, hv, fieldErrorsSet, getValidationErrors]
      · simp [profileSubmit, hv, errorToastCount, List.filter]
  · intro h
    constructor
    · simp [profileSubmit, h, errorToastCount, List.filter]
    · simp [profileSubmit, h, fieldErrorsSet]
  · intro h
    constructor
    · simp [profileSubmit, h, errorToastCount, List.filter]
    · simp [profileSubmit, h, fieldErrorsSet]
  · intro h
    constructor
    · simp [signInSubmit, h]
    · simp [signInSubmit, h, errorToastCount, List.filter]

/-- Witness for the amended claim C7 at concrete failures: an invalid sign-up
is surfaced inline, a failed sign-up request is surfaced as one generic error
toast, and the profile `TypeError` (absent password field) is surfaced as one
generic error toast. -/
theorem failure_surfacing_outcomes_witness :
    inlineOutcome (signUpSubmit ⟨some "", some "a@b.com", some "123456"⟩ false) ∧
    genericOutcome (signUpSubmit ⟨some "n", some "a@b.com", some "123456"⟩ false) ∧
    genericOutcome (profileSubmit ⟨some "n", some "a@b.com", none, none, none⟩ false) := by
  refine ⟨(failure_surfacing_outcomes ⟨some "", some "a@b.com", some "123456"⟩
      ⟨some "n", some "a@b.com", none, none, none⟩ ⟨none, none⟩ false).1 (by decide),
    (failure_surfacing_outcomes ⟨some "n", some "a@b.com", some "123456"⟩
      ⟨some "n", some "a@b.com", none, none, none⟩ ⟨none, none⟩ false).2.1 (by decide),
    (failure_surfacing_outcomes ⟨some "n", some "a@b.com", some "123456"⟩
      ⟨some "n", some "a@b.com", none, none, none⟩ ⟨none, none⟩ false).2.2.2.2.1 rfl⟩

/-- Claim C8: a displayed toast's timer fires at mount time plus the fixed
3000ms and invokes removal by the toast's identifier exactly once; a manual
dismissal strictly before the timeout invokes removal exactly once at the
dismissal time, the cleanup having cancelled the timer so it never acts on
the removed entry; and removal by identifier deletes the entry and is
idempotent (no double-removal error). -/
theorem toast_timer_removal (m dt i : Nat) (l : List ToastMessage)
    (hdt : dt < m + 3000) :
    toastRemoveCalls m none i = [(m + 3000, i)] ∧
    toastRemoveCalls m (some dt) i = [(dt, i)] ∧
    (∀ t ∈ removeToast i l, t.id ≠ i) ∧
    removeToast i (removeToast i l) = removeToast i l := by
  refine ⟨rfl, ?_, ?_, ?_⟩
  · simp [toastRemoveCalls, timerFireTime, hdt]
  · intro t ht
    simp [removeToast, List.mem_filter] at ht
    exact ht.2
  · simp [removeToast, List.filter_filter]

/-- Witness for claim C8: a toast mounted at time 0 is auto-removed at 3000;
dismissed manually at time 5 it is removed once at 5 and the timer never
fires; removing its entry twice equals removing it once. -/
theorem toast_timer_removal_witness :
    toastRemoveCalls 0 none 1 = [(3000, 1)] ∧
    toastRemoveCalls 0 (some 5) 1 = [(5, 1)] ∧
    removeToast 1 (removeToast 1 [⟨1, ToastKind.info, "t", none⟩]) =
      removeToast 1 [⟨1, ToastKind.info, "t", none⟩] := by
  have h := toast_timer_removal 0 5 1 [⟨1, ToastKind.info, "t", none⟩] (by decide)
  exact ⟨h.1, h.2.1, h.2.2.2⟩

/-- Claim C9: the profile schema's `when` condition evaluates `val.length` on
the `password` value, so profile validation produces a validation result only
when that field is a string: an absent (`undefined`/`null`) password makes
`schema.validate` reject with a `TypeError` instead. -/
theorem profile_validation_typeerror_on_absent_password (d : ProfileFormData) :
    (d.password = none → profileValidate d = Except.error ()) ∧
    (∀ pw, d.password = some pw →
      profileValidate d = Except.ok (profileFieldErrors d pw)) := by
  constructor
  · intro h
    simp [profileValidate, h]
  · intro pw h
    simp [profileValidate, h]

/-- Witness for claim C9: a profile submission whose password field is absent
makes validation reject with the non-validation error. -/
theorem profile_validation_typeerror_witness :
    profileValidate ⟨some "n", some "a@b.com", some "x", none, some "y"⟩ =
      Except.error () :=
  (profile_validation_typeerror_on_absent_password
    ⟨some "n", some "a@b.com", some "x", none, some "y"⟩).1 rfl

/-- Claim C10: for every profile submission accepted by the schema, the
profile-update request body carries `name` and `email` always, and carries
the `old_password`, `password` and `password_confirmation` fields exactly
when `old_password` is truthy (non-empty); the handler then issues that
request right after validation. -/
theorem profile_body_keyed_on_old_password (d : ProfileFormData) (r : Bool)
    (h : profileValidate d = Except.ok []) :
    (mkProfileBody d).name = d.name ∧
    (mkProfileBody d).email = d.email ∧
    ((mkProfileBody d).passwords =
        some (d.old_password, d.password, d.password_confirmation) ↔
      truthy d.old_password = true) ∧
    ((mkProfileBody d).passwords = none ↔ truthy d.old_password = false) ∧
    (∃ rest, profileSubmit d r =
      Event.validate [] ::
      Event.request (ApiRequest.putProfile (mkProfileBody d)) :: rest) := by
  refine ⟨rfl, rfl, ?_, ?_, ?_⟩
  · cases ht : truthy d.old_password <;> simp [mkProfileBody, ht]
  · cases ht : truthy d.old_password <;> simp [mkProfileBody, ht]
  · refine ⟨if r then [Event.toast ToastKind.success "Cadastro realizado",
        Event.navigate "/dashboard"]
      else [Event.toast ToastKind.error "Erro ao cadastrar perfil"], ?_⟩
    simp [profileSubmit, h]

/-- Witness for claim C10: submitting only an old password (`oldpw`, with
empty new password and confirmation) passes validation and sends the password
fields with their empty values in the update body. -/
theorem profile_body_keyed_on_old_password_witness :
    profileValidate ⟨some "n", some "a@b.com", some "oldpw", some "", some ""⟩ =
      Except.ok [] ∧
    (mkProfileBody ⟨some "n", some "a@b.com", some "oldpw", some "", some ""⟩).passwords =
      some (some "oldpw", some "", some "") := by
  have h := profile_body_keyed_on_old_password
    ⟨some "n", some "a@b.com", some "oldpw", some "", some ""⟩ true (by decide)
  exact ⟨by decide, h.2.2.1.mpr (by decide)⟩
